import Mathlib

/-!
Shallow embedding of the QoS-resource handling core of cri-o's server
package (files server/qos_resources_linux.go and the Status RPC), together
with theorems checking the natural-language specification against it.

Modelling conventions:
- Go maps are modelled as association lists (`List (String × String)` for
  request maps, `List (String × List String)` for the dummy catalogs);
  lookup returns the first matching key, and validation loops walk the
  list in order (Go map iteration order is unspecified, and the spec
  explicitly tells callers not to rely on which violation is reported
  first).
- Go errors produced by the distinct fmt.Errorf sites are modelled by an
  inductive type `QoSError` with one constructor per site; an error
  propagated verbatim from an external collaborator is wrapped in
  `QoSError.resolverError` carrying the collaborator's message.
- External collaborators (the rdt and goresctrl blockio packages: the
  Enabled/GetClasses accessors, ContainerClassFromAnnotations resolvers,
  the OciLinuxBlockIO translator and the ResctrlPrefix constant) are not
  part of the sources; they are modelled as fields of `ServerConfig`, so
  every theorem quantifies over their behaviour.
- The in-place mutation of the OCI runtime spec is modelled by explicit
  state passing: `handleContainerQoSResources` returns the final spec
  together with an optional error, mirroring the Go function which
  returns an error while having already written to the spec it was given.
- The type of the structure produced by the BlockIO translator is opaque
  to this core, so it is a type parameter `β`.
-/

namespace CrioQoS

/-- CRI resource type name for RDT (types.QoSResourceRdt). -/
def QoSResourceRdt : String := "rdt"

/-- CRI resource type name for block-I/O (types.QoSResourceBlockio). -/
def QoSResourceBlockio : String := "blockio"

/-- First-match association list lookup, modelling Go's `v, ok := m[k]`:
`some v` corresponds to `ok = true`. -/
def lookupEntry {α : Type} : List (String × α) → String → Option α
  | [], _ => none
  | (k, v) :: rest, r => if k = r then some v else lookupEntry rest r

/-- A types.QoSResourceClassInfo value: class name and capacity. -/
structure ClassInfo where
  name : String
  capacity : Nat
deriving DecidableEq, Repr

/-- A types.QoSResourceInfo value: resource name, mutability flag and class list. -/
structure QoSResourceInfo where
  name : String
  mutable : Bool
  classes : List ClassInfo
deriving DecidableEq, Repr

/-- createClassInfos: one ClassInfo per name, capacity equal to the index. -/
def createClassInfos (names : List String) : List ClassInfo :=
  names.enum.map fun p => ⟨p.2, p.1⟩

/-- The dummyPodQoSResourcesInfo global, as populated by init(). -/
def dummyPodQoSResourcesInfo : List QoSResourceInfo :=
  [ ⟨"podres-1", false, createClassInfos ["qos-a", "qos-b", "qos-c", "qos-d"]⟩,
    ⟨"podres-2", false, createClassInfos ["cls-1", "cls-2", "cls-3", "cls-4", "cls-5"]⟩ ]

/-- The dummyContainerQoSResourcesInfo global, as populated by init(). -/
def dummyContainerQoSResourcesInfo : List QoSResourceInfo :=
  [ ⟨"dummy-1", false, createClassInfos ["class-a", "class-b", "class-c", "class-d"]⟩,
    ⟨"dummy-2", false, createClassInfos ["platinum", "gold", "silver", "bronze"]⟩ ]

/-- The dummuGen closure from init(): turn an info list into a map from
resource name to its set of class names. -/
def dummuGen (infos : List QoSResourceInfo) : List (String × List String) :=
  infos.map fun info => (info.name, info.classes.map ClassInfo.name)

/-- The dummyPodQoSResources global, as populated by init(). -/
def dummyPodQoSResources : List (String × List String) :=
  dummuGen dummyPodQoSResourcesInfo

/-- The dummyContainerQoSResources global, as populated by init(). -/
def dummyContainerQoSResources : List (String × List String) :=
  dummuGen dummyContainerQoSResourcesInfo

/-- An annotation map (free-form string keys and values). -/
def AnnotSet : Type := List (String × String)

/-- The slice of the rdt configuration collaborator this core consumes:
Enabled(), GetClasses(), ContainerClassFromAnnotations and the
ResctrlPrefix constant (all from internal/config/rdt, outside these
sources, hence abstract here). The resolver returns either an error
message or a class name (possibly empty). -/
structure RdtConfig where
  enabled : Bool
  classes : List String
  resctrlPrefix : String
  containerClassFromAnnots : String → AnnotSet → AnnotSet → Except String String

/-- The slice of the BlockIO configuration collaborator this core consumes:
Enabled() and GetClasses(). -/
structure BlockIoConfig where
  enabled : Bool
  classes : List String

/-- The server configuration: the two native subsystem collaborators plus
the goresctrl blockio package functions ContainerClassFromAnnotations and
OciLinuxBlockIO. `β` is the (opaque) type of the translated block-I/O
resource structure. -/
structure ServerConfig (β : Type) where
  rdt : RdtConfig
  blockIo : BlockIoConfig
  blockIoClassFromAnnots : String → AnnotSet → AnnotSet → Except String String
  ociLinuxBlockIo : String → Except String β

/-- The slice of types.ContainerConfig this core reads: Metadata.Name,
Annotations, and GetQosResources().GetClasses(). -/
structure ContainerConfig where
  name : String
  annots : AnnotSet
  qosClasses : List (String × String)

/-- The slice of the sandbox object this core reads: Annotations(). -/
structure Sandbox where
  annots : AnnotSet

/-- The slice of types.PodSandboxConfig this core reads:
GetQosResources().GetClasses(). -/
structure PodSandboxConfig where
  qosClasses : List (String × String)

/-- The rspec.LinuxIntelRdt field written by this core. -/
structure LinuxIntelRdt where
  closID : String
deriving DecidableEq, Repr

/-- The slice of rspec.LinuxResources this core writes (the BlockIO
pointer; `none` models a nil pointer). -/
structure LinuxResources (β : Type) where
  blockIo : Option β
deriving DecidableEq, Repr

/-- The slice of rspec.Linux this core writes. `none` models nil pointers. -/
structure SpecLinux (β : Type) where
  intelRdt : Option LinuxIntelRdt
  resources : Option (LinuxResources β)
deriving DecidableEq, Repr

/-- The slice of the OCI runtime spec (rspec.Spec) this core writes. -/
structure OciSpec (β : Type) where
  linux : SpecLinux β
deriving DecidableEq, Repr

/-- Errors of this core, one constructor per fmt.Errorf site (plus one for
errors propagated verbatim from an annotation resolver collaborator). -/
inductive QoSError where
  | unknownResourceType (r : String)
  | unknownClass (r c : String)
  | emptyClassName (r : String)
  | rdtDisabled (containerName cls : String)
  | blockIoDisabled (containerName cls : String)
  | resolverError (msg : String)
deriving DecidableEq, Repr

/-- One iteration of the request-map loop in handleSandboxQoSResources:
the switch statement (default branch only: dummy pod catalog membership
checks) followed by the empty-class check. -/
def validateSandboxEntry (r c : String) : Option QoSError :=
  let switchErr : Option QoSError :=
    match lookupEntry dummyPodQoSResources r with
    | none => some (QoSError.unknownResourceType r)
    | some cr => if c ∈ cr then none else some (QoSError.unknownClass r c)
  match switchErr with
  | some e => some e
  | none => if c = "" then some (QoSError.emptyClassName r) else none

/-- The request-map loop of handleSandboxQoSResources, returning the first
violation in list order. -/
def validateSandboxClasses : List (String × String) → Option QoSError
  | [] => none
  | (r, c) :: rest =>
    match validateSandboxEntry r c with
    | some e => some e
    | none => validateSandboxClasses rest

/-- handleSandboxQoSResources: validate the pod-level QoS resource request
map; `none` models a nil error. -/
def handleSandboxQoSResources (config : PodSandboxConfig) : Option QoSError :=
  validateSandboxClasses config.qosClasses

/-- One iteration of the request-map loop in handleContainerQoSResources:
the switch statement (RDT and BlockIO cases are empty, the default branch
checks the dummy container catalog) followed by the empty-class check. -/
def validateContainerEntry (r c : String) : Option QoSError :=
  let switchErr : Option QoSError :=
    if r = QoSResourceRdt then none
    else if r = QoSResourceBlockio then none
    else
      match lookupEntry dummyContainerQoSResources r with
      | none => some (QoSError.unknownResourceType r)
      | some cr => if c ∈ cr then none else some (QoSError.unknownClass r c)
  match switchErr with
  | some e => some e
  | none => if c = "" then some (QoSError.emptyClassName r) else none

/-- The request-map loop of handleContainerQoSResources, returning the
first violation in list order. -/
def validateContainerClasses : List (String × String) → Option QoSError
  | [] => none
  | (r, c) :: rest =>
    match validateContainerEntry r c with
    | some e => some e
    | none => validateContainerClasses rest

/-- getClassFromResourceConfig: look the resource type up in the
container's structured QoS resource map. `some cls` corresponds to the
Go `ok = true` return. -/
def getClassFromResourceConfig (resourceType : String) (container : ContainerConfig) :
    Option String :=
  lookupEntry container.qosClasses resourceType

/-- Steps 1-2 of getContainerRdtClass: the candidate class before the
enablement check — the structured map entry when present, otherwise the
rdt annotation resolver's result (whose failure is propagated). -/
def rdtCandidate {β : Type} (cfg : ServerConfig β) (container : ContainerConfig)
    (sb : Sandbox) : Except QoSError String :=
  match getClassFromResourceConfig QoSResourceRdt container with
  | some cls => Except.ok cls
  | none =>
    match cfg.rdt.containerClassFromAnnots container.name container.annots sb.annots with
    | Except.error e => Except.error (QoSError.resolverError e)
    | Except.ok cls => Except.ok cls

/-- getContainerRdtClass: candidate resolution followed by the
RDT-disabled check. -/
def getContainerRdtClass {β : Type} (cfg : ServerConfig β) (container : ContainerConfig)
    (sb : Sandbox) : Except QoSError String :=
  match rdtCandidate cfg container sb with
  | Except.error e => Except.error e
  | Except.ok cls =>
    if cls ≠ "" ∧ cfg.rdt.enabled = false then
      Except.error (QoSError.rdtDisabled container.name cls)
    else
      Except.ok cls

/-- Steps 1-2 of getContainerBlockioClass: the candidate class before the
enablement check — the structured map entry when present, otherwise the
goresctrl blockio annotation resolver's result. -/
def blockIoCandidate {β : Type} (cfg : ServerConfig β) (container : ContainerConfig)
    (sb : Sandbox) : Except QoSError String :=
  match getClassFromResourceConfig QoSResourceBlockio container with
  | some cls => Except.ok cls
  | none =>
    match cfg.blockIoClassFromAnnots container.name container.annots sb.annots with
    | Except.error e => Except.error (QoSError.resolverError e)
    | Except.ok cls => Except.ok cls

/-- getContainerBlockioClass: candidate resolution followed by the
BlockIO-disabled check. -/
def getContainerBlockioClass {β : Type} (cfg : ServerConfig β)
    (container : ContainerConfig) (sb : Sandbox) : Except QoSError String :=
  match blockIoCandidate cfg container sb with
  | Except.error e => Except.error e
  | Except.ok cls =>
    if cls ≠ "" ∧ cfg.blockIo.enabled = false then
      Except.error (QoSError.blockIoDisabled container.name cls)
    else
      Except.ok cls

/-- The RDT projection step of handleContainerQoSResources: a non-empty
class overwrites spec.Linux.IntelRdt with ClosID = ResctrlPrefix + class;
an empty class leaves the spec untouched. -/
def projectRdt {β : Type} (cfg : ServerConfig β) (cls : String) (spec : OciSpec β) :
    OciSpec β :=
  if cls ≠ "" then
    { spec with linux.intelRdt := some ⟨cfg.rdt.resctrlPrefix ++ cls⟩ }
  else spec

/-- The BlockIO projection step of handleContainerQoSResources: a
non-empty class is passed to the OciLinuxBlockIO translator; on success
the result overwrites spec.Linux.Resources.BlockIO (allocating the
Resources struct if nil), and on translator error the spec is left
untouched. -/
def projectBlockIo {β : Type} (cfg : ServerConfig β) (cls : String) (spec : OciSpec β) :
    OciSpec β :=
  if cls ≠ "" then
    match cfg.ociLinuxBlockIo cls with
    | Except.ok lb =>
      let res := spec.linux.resources.getD ⟨none⟩
      { spec with linux.resources := some { res with blockIo := some lb } }
    | Except.error _ => spec
  else spec

/-- handleContainerQoSResources: validate the container's request map,
resolve and project RDT, then resolve and project BlockIO. Returns the
final state of the (in Go: mutated in place) OCI spec together with the
error returned, so that partial mutation before an error is observable. -/
def handleContainerQoSResources {β : Type} (cfg : ServerConfig β)
    (container : ContainerConfig) (sb : Sandbox) (spec : OciSpec β) :
    OciSpec β × Option QoSError :=
  match validateContainerClasses container.qosClasses with
  | some e => (spec, some e)
  | none =>
    match getContainerRdtClass cfg container sb with
    | Except.error e => (spec, some e)
    | Except.ok rdtClass =>
      let spec1 := projectRdt cfg rdtClass spec
      match getContainerBlockioClass cfg container sb with
      | Except.error e => (spec1, some e)
      | Except.ok bioClass => (projectBlockIo cfg bioClass spec1, none)

/-- getPodQoSResourcesInfo: the pod-level capability catalog snapshot
(only the dummy pod resources). -/
def getPodQoSResourcesInfo : List QoSResourceInfo :=
  dummyPodQoSResourcesInfo

/-- getContainerQoSResourcesInfo: the container-level capability catalog
snapshot — RDT and BlockIO entries when their configured class lists are
non-empty, followed by the dummy container resources. -/
def getContainerQoSResourcesInfo {β : Type} (cfg : ServerConfig β) :
    List QoSResourceInfo :=
  let info : List QoSResourceInfo := []
  let info := if cfg.rdt.classes.length > 0 then
      info ++ [⟨QoSResourceRdt, false, createClassInfos cfg.rdt.classes⟩]
    else info
  let info := if cfg.blockIo.classes.length > 0 then
      info ++ [⟨QoSResourceBlockio, false, createClassInfos cfg.blockIo.classes⟩]
    else info
  info ++ dummyContainerQoSResourcesInfo

/-- All (resource type, class name) pairs exposed by a catalog snapshot. -/
def catalogPairs (infos : List QoSResourceInfo) : List (String × String) :=
  infos.flatMap fun info => info.classes.map fun c => (info.name, c.name)

/-- Condition type name types.RuntimeReady. -/
def RuntimeReady : String := "RuntimeReady"

/-- Condition type name types.NetworkReady. -/
def NetworkReady : String := "NetworkReady"

/-- Reason reported when the network is not ready. -/
def networkNotReadyReason : String := "NetworkPluginNotReady"

/-- A types.RuntimeCondition value. -/
structure RuntimeCondition where
  type : String
  status : Bool
  reason : String
  message : String
deriving DecidableEq, Repr

/-- The types.ResourcesInfo part of a status response. -/
structure ResourcesInfo where
  podQosResources : List QoSResourceInfo
  containerQosResources : List QoSResourceInfo
deriving DecidableEq, Repr

/-- The types.RuntimeStatus part of a status response. -/
structure RuntimeStatus where
  conditions : List RuntimeCondition
  resources : ResourcesInfo
deriving DecidableEq, Repr

/-- The Status RPC: readiness conditions (the network one degraded when
the CNI plugin reports an error, an external collaborator modelled as an
optional error message) plus the capability catalog snapshot. -/
def status {β : Type} (cfg : ServerConfig β) (cniPluginError : Option String) :
    RuntimeStatus :=
  let runtimeCondition : RuntimeCondition := ⟨RuntimeReady, true, "", ""⟩
  let networkCondition : RuntimeCondition :=
    match cniPluginError with
    | none => ⟨NetworkReady, true, "", ""⟩
    | some err =>
      ⟨NetworkReady, false, networkNotReadyReason,
        "Network plugin returns error: " ++ err⟩
  ⟨[runtimeCondition, networkCondition],
    ⟨getPodQoSResourcesInfo, getContainerQoSResourcesInfo cfg⟩⟩

/-! Concrete inputs used by witnesses and counterexamples. -/

/-- An annotation resolver that always succeeds with a fixed class. -/
def okResolver (cls : String) : String → AnnotSet → AnnotSet → Except String String :=
  fun _ _ _ => Except.ok cls

/-- An annotation resolver that always fails with a fixed message. -/
def errResolver (msg : String) : String → AnnotSet → AnnotSet → Except String String :=
  fun _ _ _ => Except.error msg

/-- A container requesting RDT class "gold" and BlockIO class "fast". -/
def wCtr : ContainerConfig := ⟨"ctr", [], [("rdt", "gold"), ("blockio", "fast")]⟩

/-- A sandbox with no annotations. -/
def wSb : Sandbox := ⟨[]⟩

/-- A sandbox with one (irrelevant) annotation. -/
def wSb2 : Sandbox := ⟨[("key", "value")]⟩

/-- A fully enabled server whose annotation resolvers would return
"silver" and "slow" and whose translator succeeds. -/
def wCfgSilver : ServerConfig Nat :=
  ⟨⟨true, ["gold"], "pfx-", okResolver "silver"⟩, ⟨true, ["fast"]⟩,
    okResolver "slow", fun _ => Except.ok 1⟩

/-- A fully enabled server whose annotation resolvers always fail and
whose translator fails. -/
def wCfgBoom : ServerConfig Nat :=
  ⟨⟨true, [], "pfx-", errResolver "boom"⟩, ⟨true, []⟩,
    errResolver "bang", fun _ => Except.error "no"⟩

/-- A server with RDT enabled but BlockIO disabled. -/
def wCfgBioOff : ServerConfig Nat :=
  ⟨⟨true, ["gold"], "pfx-", okResolver "silver"⟩, ⟨false, ["fast"]⟩,
    okResolver "slow", fun _ => Except.ok 1⟩

/-- An OCI spec with no IntelRdt and no Resources section (fresh
descriptor). -/
def spec0 : OciSpec Nat := ⟨⟨none, none⟩⟩

/-- A server whose annotation resolvers return the empty class. -/
def wCfgNone : ServerConfig Nat :=
  ⟨⟨true, [], "pfx-", okResolver ""⟩, ⟨true, []⟩, okResolver "", fun _ => Except.ok 1⟩

/-- A container with no structured QoS resource entries. -/
def wCtrEmpty : ContainerConfig := ⟨"ctr", [], []⟩

/-- A container requesting only RDT class "gold" in the structured map. -/
def wCtrRdtOnly : ContainerConfig := ⟨"ctr", [], [("rdt", "gold")]⟩

/-! Helper lemmas. -/

/-- The RDT projection step never touches the Resources section. -/
theorem projectRdt_resources {β : Type} (cfg : ServerConfig β) (cls : String)
    (spec : OciSpec β) : (projectRdt cfg cls spec).linux.resources = spec.linux.resources := by
  unfold projectRdt
  split <;> rfl

/-- The BlockIO projection step never touches the IntelRdt field. -/
theorem projectBlockIo_intelRdt {β : Type} (cfg : ServerConfig β) (cls : String)
    (spec : OciSpec β) : (projectBlockIo cfg cls spec).linux.intelRdt = spec.linux.intelRdt := by
  unfold projectBlockIo
  split
  · split <;> rfl
  · rfl

/-- Unfolding equation for the sandbox validation loop on a cons cell. -/
theorem validateSandboxClasses_cons (r c : String) (rest : List (String × String)) :
    validateSandboxClasses ((r, c) :: rest) =
      match validateSandboxEntry r c with
      | some e => some e
      | none => validateSandboxClasses rest := rfl

/-- Unfolding equation for the container validation loop on a cons cell. -/
theorem validateContainerClasses_cons (r c : String) (rest : List (String × String)) :
    validateContainerClasses ((r, c) :: rest) =
      match validateContainerEntry r c with
      | some e => some e
      | none => validateContainerClasses rest := rfl

/-- A sandbox-request prefix that validates cleanly is skipped by the
validation loop. -/
theorem validateSandboxClasses_append (xs ys : List (String × String))
    (h : validateSandboxClasses xs = none) :
    validateSandboxClasses (xs ++ ys) = validateSandboxClasses ys := by
  induction xs with
  | nil => rfl
  | cons p rest ih =>
    obtain ⟨r, c⟩ := p
    rw [List.cons_append] at *
    rw [validateSandboxClasses_cons] at h ⊢
    cases he : validateSandboxEntry r c with
    | some e => rw [he] at h; simp at h
    | none => rw [he] at h; exact ih h

/-- A container-request prefix that validates cleanly is skipped by the
validation loop. -/
theorem validateContainerClasses_append (xs ys : List (String × String))
    (h : validateContainerClasses xs = none) :
    validateContainerClasses (xs ++ ys) = validateContainerClasses ys := by
  induction xs with
  | nil => rfl
  | cons p rest ih =>
    obtain ⟨r, c⟩ := p
    rw [List.cons_append] at *
    rw [validateContainerClasses_cons] at h ⊢
    cases he : validateContainerEntry r c with
    | some e => rw [he] at h; simp at h
    | none => rw [he] at h; exact ih h

/-- C1: for each native resource type, an entry in the container's
structured QoS resource map decides the resolved class outright — the
result does not depend on the annotation resolvers or on the annotation
sets (the annotation channel is not consulted), and equals the entry's
value unless the subsystem-disabled check turns it into an error. -/
theorem c1_structured_map_wins {β β' : Type} (cfg : ServerConfig β)
    (cfg' : ServerConfig β') (ctr : ContainerConfig) (sb sb' : Sandbox) (v w : String)
    (hrdtEnab : cfg.rdt.enabled = cfg'.rdt.enabled)
    (hbioEnab : cfg.blockIo.enabled = cfg'.blockIo.enabled) :
    (lookupEntry ctr.qosClasses QoSResourceRdt = some v →
      getContainerRdtClass cfg ctr sb = getContainerRdtClass cfg' ctr sb' ∧
      getContainerRdtClass cfg ctr sb =
        (if v ≠ "" ∧ cfg.rdt.enabled = false then
          Except.error (QoSError.rdtDisabled ctr.name v)
        else Except.ok v)) ∧
    (lookupEntry ctr.qosClasses QoSResourceBlockio = some w →
      getContainerBlockioClass cfg ctr sb = getContainerBlockioClass cfg' ctr sb' ∧
      getContainerBlockioClass cfg ctr sb =
        (if w ≠ "" ∧ cfg.blockIo.enabled = false then
          Except.error (QoSError.blockIoDisabled ctr.name w)
        else Except.ok w)) := by
  constructor
  · intro h
    have e1 : rdtCandidate cfg ctr sb = Except.ok v := by
      unfold rdtCandidate getClassFromResourceConfig
      rw [h]
    have e2 : rdtCandidate cfg' ctr sb' = Except.ok v := by
      unfold rdtCandidate getClassFromResourceConfig
      rw [h]
    constructor
    · unfold getContainerRdtClass
      rw [e1, e2, hrdtEnab]
    · unfold getContainerRdtClass
      rw [e1]
  · intro h
    have e1 : blockIoCandidate cfg ctr sb = Except.ok w := by
      unfold blockIoCandidate getClassFromResourceConfig
      rw [h]
    have e2 : blockIoCandidate cfg' ctr sb' = Except.ok w := by
      unfold blockIoCandidate getClassFromResourceConfig
      rw [h]
    constructor
    · unfold getContainerBlockioClass
      rw [e1, e2, hbioEnab]
    · unfold getContainerBlockioClass
      rw [e1]

/-- Witness for C1: with RDT "gold" and BlockIO "fast" in the structured
map, both a server whose resolvers would answer "silver"/"slow" and a
server whose resolvers always fail resolve to "gold" and "fast". -/
theorem c1_witness :
    getContainerRdtClass wCfgSilver wCtr wSb = Except.ok "gold" ∧
    getContainerRdtClass wCfgBoom wCtr wSb2 = Except.ok "gold" ∧
    getContainerBlockioClass wCfgSilver wCtr wSb = Except.ok "fast" ∧
    getContainerBlockioClass wCfgBoom wCtr wSb2 = Except.ok "fast" := by
  obtain ⟨hr, hb⟩ :=
    c1_structured_map_wins wCfgSilver wCfgBoom wCtr wSb wSb2 "gold" "fast" rfl rfl
  obtain ⟨hreq, hrval⟩ := hr rfl
  obtain ⟨hbeq, hbval⟩ := hb rfl
  refine ⟨?_, ?_, ?_, ?_⟩
  · rw [hrval]
    simp [wCfgSilver]
  · rw [← hreq, hrval]
    simp [wCfgSilver]
  · rw [hbval]
    simp [wCfgSilver]
  · rw [← hbeq, hbval]
    simp [wCfgSilver]

/-- C2 counterexample: with RDT enabled, RDT class "gold" and BlockIO
class "fast" in the structured map but BlockIO disabled, the handler
returns the SubsystemDisabled error for BlockIO, yet the launch
descriptor has been mutated (the RDT ClosID was already written) — so
"no field of the launch descriptor is mutated" fails as stated. -/
theorem c2_counterexample :
    (handleContainerQoSResources wCfgBioOff wCtr wSb spec0).2 =
      some (QoSError.blockIoDisabled "ctr" "fast") ∧
    (handleContainerQoSResources wCfgBioOff wCtr wSb spec0).1 ≠ spec0 := by
  decide

/-- C2 (amended): a non-empty candidate for a disabled native subsystem
is never silently dropped: resolution returns the SubsystemDisabled
error naming container and class, the handler propagates it, and the
failing type's own projection is not applied (an RDT failure leaves the
descriptor fully untouched; a BlockIO failure leaves the block-I/O
resource section untouched, though the RDT write of the same call
persists). -/
theorem c2_disabled_is_error {β : Type} (cfg : ServerConfig β) (ctr : ContainerConfig)
    (sb : Sandbox) (spec : OciSpec β)
    (hval : validateContainerClasses ctr.qosClasses = none) :
    (∀ cls, rdtCandidate cfg ctr sb = Except.ok cls → cls ≠ "" →
      cfg.rdt.enabled = false →
      getContainerRdtClass cfg ctr sb =
        Except.error (QoSError.rdtDisabled ctr.name cls) ∧
      handleContainerQoSResources cfg ctr sb spec =
        (spec, some (QoSError.rdtDisabled ctr.name cls))) ∧
    (∀ rcls cls, getContainerRdtClass cfg ctr sb = Except.ok rcls →
      blockIoCandidate cfg ctr sb = Except.ok cls → cls ≠ "" →
      cfg.blockIo.enabled = false →
      getContainerBlockioClass cfg ctr sb =
        Except.error (QoSError.blockIoDisabled ctr.name cls) ∧
      (handleContainerQoSResources cfg ctr sb spec).2 =
        some (QoSError.blockIoDisabled ctr.name cls) ∧
      (handleContainerQoSResources cfg ctr sb spec).1.linux.resources =
        spec.linux.resources) := by
  constructor
  · intro cls hc hne hdis
    have hg : getContainerRdtClass cfg ctr sb =
        Except.error (QoSError.rdtDisabled ctr.name cls) := by
      unfold getContainerRdtClass
      rw [hc]
      exact if_pos ⟨hne, hdis⟩
    refine ⟨hg, ?_⟩
    unfold handleContainerQoSResources
    rw [hval, hg]
  · intro rcls cls hr hc hne hdis
    have hg : getContainerBlockioClass cfg ctr sb =
        Except.error (QoSError.blockIoDisabled ctr.name cls) := by
      unfold getContainerBlockioClass
      rw [hc]
      exact if_pos ⟨hne, hdis⟩
    have hh : handleContainerQoSResources cfg ctr sb spec =
        (projectRdt cfg rcls spec, some (QoSError.blockIoDisabled ctr.name cls)) := by
      unfold handleContainerQoSResources
      rw [hval, hr, hg]
    refine ⟨hg, ?_, ?_⟩
    · rw [hh]
    · rw [hh]
      exact projectRdt_resources cfg rcls spec

/-- Witness for the amended C2, at the counterexample's inputs. -/
theorem c2_witness :
    getContainerBlockioClass wCfgBioOff wCtr wSb =
      Except.error (QoSError.blockIoDisabled "ctr" "fast") ∧
    (handleContainerQoSResources wCfgBioOff wCtr wSb spec0).2 =
      some (QoSError.blockIoDisabled "ctr" "fast") ∧
    (handleContainerQoSResources wCfgBioOff wCtr wSb spec0).1.linux.resources =
      spec0.linux.resources := by
  exact (c2_disabled_is_error wCfgBioOff wCtr wSb spec0 rfl).2 "gold" "fast"
    rfl rfl (by decide) rfl

/-- C3: when BlockIO resolution yields a non-empty class but the
OciLinuxBlockIO translator fails, the projection is skipped — the
block-I/O resource section keeps its previous value — and the handler
still returns success; the translator failure is never surfaced. -/
theorem c3_translator_error_swallowed {β : Type} (cfg : ServerConfig β)
    (ctr : ContainerConfig) (sb : Sandbox) (spec : OciSpec β)
    (rcls bcls msg : String)
    (hval : validateContainerClasses ctr.qosClasses = none)
    (hr : getContainerRdtClass cfg ctr sb = Except.ok rcls)
    (hb : getContainerBlockioClass cfg ctr sb = Except.ok bcls)
    (hne : bcls ≠ "")
    (htr : cfg.ociLinuxBlockIo bcls = Except.error msg) :
    (handleContainerQoSResources cfg ctr sb spec).2 = none ∧
    (handleContainerQoSResources cfg ctr sb spec).1.linux.resources =
      spec.linux.resources := by
  have hh : handleContainerQoSResources cfg ctr sb spec =
      (projectBlockIo cfg bcls (projectRdt cfg rcls spec), none) := by
    unfold handleContainerQoSResources
    rw [hval, hr, hb]
  have hp : projectBlockIo cfg bcls (projectRdt cfg rcls spec) =
      projectRdt cfg rcls spec := by
    unfold projectBlockIo
    rw [if_pos hne, htr]
  rw [hh, hp]
  exact ⟨rfl, projectRdt_resources cfg rcls spec⟩

/-- Witness for C3: a server whose translator always fails still handles
a container requesting RDT "gold" and BlockIO "fast" successfully,
leaving the resources section untouched. -/
theorem c3_witness :
    (handleContainerQoSResources wCfgBoom wCtr wSb spec0).2 = none ∧
    (handleContainerQoSResources wCfgBoom wCtr wSb spec0).1.linux.resources =
      spec0.linux.resources := by
  exact c3_translator_error_swallowed wCfgBoom wCtr wSb spec0 "gold" "fast" "no"
    rfl rfl rfl (by decide) rfl

/-- Every sandbox-request entry with an empty class value is a
violation: the per-entry validation never returns nil on it. -/
theorem validateSandboxEntry_empty (r : String) : validateSandboxEntry r "" ≠ none := by
  unfold validateSandboxEntry
  cases hl : lookupEntry dummyPodQoSResources r with
  | none => simp [hl]
  | some cr => by_cases hm : "" ∈ cr <;> simp [hl, hm]

/-- Every container-request entry with an empty class value is a
violation: the per-entry validation never returns nil on it. -/
theorem validateContainerEntry_empty (r : String) : validateContainerEntry r "" ≠ none := by
  unfold validateContainerEntry
  by_cases h1 : r = QoSResourceRdt
  · simp [h1]
  · by_cases h2 : r = QoSResourceBlockio
    · simp [h1, h2]
    · cases hl : lookupEntry dummyContainerQoSResources r with
      | none => simp [h1, h2, hl]
      | some cr => by_cases hm : "" ∈ cr <;> simp [h1, h2, hl, hm]

/-- The sandbox validation loop fails on any request containing an
empty-valued entry. -/
theorem validateSandboxClasses_empty_mem (entries : List (String × String)) (r : String)
    (h : (r, "") ∈ entries) : validateSandboxClasses entries ≠ none := by
  induction entries with
  | nil => cases h
  | cons p rest ih =>
    obtain ⟨k, c⟩ := p
    rcases List.mem_cons.mp h with heq | hmem
    · cases heq
      rw [validateSandboxClasses_cons]
      cases he : validateSandboxEntry r "" with
      | none => exact absurd he (validateSandboxEntry_empty r)
      | some e => simp
    · rw [validateSandboxClasses_cons]
      cases he : validateSandboxEntry k c with
      | some e => simp
      | none => exact ih hmem

/-- The container validation loop fails on any request containing an
empty-valued entry. -/
theorem validateContainerClasses_empty_mem (entries : List (String × String)) (r : String)
    (h : (r, "") ∈ entries) : validateContainerClasses entries ≠ none := by
  induction entries with
  | nil => cases h
  | cons p rest ih =>
    obtain ⟨k, c⟩ := p
    rcases List.mem_cons.mp h with heq | hmem
    · cases heq
      rw [validateContainerClasses_cons]
      cases he : validateContainerEntry r "" with
      | none => exact absurd he (validateContainerEntry_empty r)
      | some e => simp
    · rw [validateContainerClasses_cons]
      cases he : validateContainerEntry k c with
      | some e => simp
      | none => exact ih hmem

/-- C4 counterexample: a pod request mapping the known extension type
"podres-1" to the empty string fails with UnknownClass (the catalog
membership check runs before the empty-class check), not with
EmptyClassName as the claim states. -/
theorem c4_counterexample :
    handleSandboxQoSResources ⟨[("podres-1", "")]⟩ =
      some (QoSError.unknownClass "podres-1" "") ∧
    QoSError.unknownClass "podres-1" "" ≠ QoSError.emptyClassName "podres-1" := by
  decide

/-- C4 (amended): a request map containing an empty class value always
fails validation, pod- and container-scoped alike, for every resource
type — but the error is EmptyClassName only when the entry first clears
(or, for native types in the container validator, skips) the catalog
checks; for native types the container validator indeed reports
EmptyClassName. -/
theorem c4_empty_class_always_fails (entries : List (String × String)) (r : String)
    (h : (r, "") ∈ entries) :
    handleSandboxQoSResources ⟨entries⟩ ≠ none ∧
    validateContainerClasses entries ≠ none ∧
    validateContainerEntry QoSResourceRdt "" =
      some (QoSError.emptyClassName QoSResourceRdt) ∧
    validateContainerEntry QoSResourceBlockio "" =
      some (QoSError.emptyClassName QoSResourceBlockio) := by
  exact ⟨validateSandboxClasses_empty_mem entries r h,
    validateContainerClasses_empty_mem entries r h, rfl, rfl⟩

/-- Witness for the amended C4, at a container request mapping RDT to
the empty string. -/
theorem c4_witness :
    handleSandboxQoSResources ⟨[("rdt", "")]⟩ ≠ none ∧
    validateContainerClasses [("rdt", "")] ≠ none ∧
    validateContainerEntry QoSResourceRdt "" =
      some (QoSError.emptyClassName QoSResourceRdt) ∧
    validateContainerEntry QoSResourceBlockio "" =
      some (QoSError.emptyClassName QoSResourceBlockio) := by
  exact c4_empty_class_always_fails [("rdt", "")] "rdt" (List.mem_singleton.mpr rfl)

/-- A container-request entry is reported as an unknown resource type
only from the default switch branch: the key is neither RDT nor BlockIO
and is absent from the dummy container catalog, and the reported type is
that key. -/
theorem validateContainerEntry_unknown (k c r : String)
    (h : validateContainerEntry k c = some (QoSError.unknownResourceType r)) :
    r = k ∧ k ≠ QoSResourceRdt ∧ k ≠ QoSResourceBlockio := by
  unfold validateContainerEntry at h
  by_cases h1 : k = QoSResourceRdt
  · by_cases hc : c = "" <;> simp [h1, hc] at h
  · by_cases h2 : k = QoSResourceBlockio
    · by_cases hc : c = "" <;> simp [h1, h2, hc] at h
    · cases hl : lookupEntry dummyContainerQoSResources k with
      | none =>
        simp [h1, h2, hl] at h
        exact ⟨h.symm, h1, h2⟩
      | some cr =>
        by_cases hm : c ∈ cr
        · by_cases hc : c = ""
          · subst hc
            simp [h1, h2, hl, hm] at h
          · simp [h1, h2, hl, hm, hc] at h
        · simp [h1, h2, hl, hm] at h

/-- C5 counterexample: the sandbox validator rejects a pod request
carrying the native RDT key with the non-empty class "gold" as an
unknown resource type — contrary to the claim that the native types are
treated as known in either validator. -/
theorem c5_counterexample :
    handleSandboxQoSResources ⟨[("rdt", "gold")]⟩ =
      some (QoSError.unknownResourceType "rdt") := by
  decide

/-- C5 (amended): only the container validator treats the native types
RDT and BlockIO as known — it never reports UnknownResourceType for
them on any request map; the sandbox validator has no native-type
cases, so a pod request carrying an RDT or BlockIO key fails with
UnknownResourceType whatever the class value is. -/
theorem c5_native_known_in_container_only :
    (∀ entries r, validateContainerClasses entries =
        some (QoSError.unknownResourceType r) →
      r ≠ QoSResourceRdt ∧ r ≠ QoSResourceBlockio) ∧
    (∀ c, handleSandboxQoSResources ⟨[(QoSResourceRdt, c)]⟩ =
        some (QoSError.unknownResourceType QoSResourceRdt) ∧
      handleSandboxQoSResources ⟨[(QoSResourceBlockio, c)]⟩ =
        some (QoSError.unknownResourceType QoSResourceBlockio)) := by
  constructor
  · intro entries
    induction entries with
    | nil => intro r h; cases h
    | cons p rest ih =>
      obtain ⟨k, c⟩ := p
      intro r h
      rw [validateContainerClasses_cons] at h
      cases he : validateContainerEntry k c with
      | some e =>
        rw [he] at h
        simp only [Option.some.injEq] at h
        subst h
        obtain ⟨hr, h1, h2⟩ := validateContainerEntry_unknown k c r he
        subst hr
        exact ⟨h1, h2⟩
      | none =>
        rw [he] at h
        exact ih r h
  · intro c
    exact ⟨rfl, rfl⟩

/-- Witness for the amended C5: the container validator does not report
RDT as unknown, while the sandbox validator does. -/
theorem c5_witness :
    validateContainerClasses [("rdt", "gold")] ≠
      some (QoSError.unknownResourceType "rdt") ∧
    handleSandboxQoSResources ⟨[("rdt", "gold")]⟩ =
      some (QoSError.unknownResourceType "rdt") := by
  constructor
  · intro hcontra
    exact (c5_native_known_in_container_only.1 [("rdt", "gold")] "rdt" hcontra).1 rfl
  · exact (c5_native_known_in_container_only.2 "gold").1

/-- C6: in both validators, once the preceding entries validate cleanly,
a non-native key absent from the catalog is reported as
UnknownResourceType for that key, and a known extension key with a class
outside that type's class set is reported as UnknownClass for that
(type, class) pair. (Which violating entry is reported first follows the
iteration order, as the specification itself stipulates.) -/
theorem c6_extension_catalog_checks (good rest : List (String × String)) (r c : String) :
    (validateSandboxClasses good = none →
      lookupEntry dummyPodQoSResources r = none →
      r ≠ QoSResourceRdt → r ≠ QoSResourceBlockio →
      validateSandboxClasses (good ++ (r, c) :: rest) =
        some (QoSError.unknownResourceType r)) ∧
    (∀ cls, validateSandboxClasses good = none →
      lookupEntry dummyPodQoSResources r = some cls → c ∉ cls →
      validateSandboxClasses (good ++ (r, c) :: rest) =
        some (QoSError.unknownClass r c)) ∧
    (validateContainerClasses good = none →
      r ≠ QoSResourceRdt → r ≠ QoSResourceBlockio →
      lookupEntry dummyContainerQoSResources r = none →
      validateContainerClasses (good ++ (r, c) :: rest) =
        some (QoSError.unknownResourceType r)) ∧
    (∀ cls, validateContainerClasses good = none →
      r ≠ QoSResourceRdt → r ≠ QoSResourceBlockio →
      lookupEntry dummyContainerQoSResources r = some cls → c ∉ cls →
      validateContainerClasses (good ++ (r, c) :: rest) =
        some (QoSError.unknownClass r c)) := by
  refine ⟨?_, ?_, ?_, ?_⟩
  · intro hgood hl _ _
    rw [validateSandboxClasses_append good _ hgood, validateSandboxClasses_cons]
    unfold validateSandboxEntry
    simp [hl]
  · intro cls hgood hl hm
    rw [validateSandboxClasses_append good _ hgood, validateSandboxClasses_cons]
    unfold validateSandboxEntry
    simp [hl, hm]
  · intro hgood h1 h2 hl
    rw [validateContainerClasses_append good _ hgood, validateContainerClasses_cons]
    unfold validateContainerEntry
    simp [h1, h2, hl]
  · intro cls hgood h1 h2 hl hm
    rw [validateContainerClasses_append good _ hgood, validateContainerClasses_cons]
    unfold validateContainerEntry
    simp [h1, h2, hl, hm]

/-- Witness for C6: unknown extension type and unknown extension class,
rejected by both validators with the corresponding errors. -/
theorem c6_witness :
    validateSandboxClasses [("ext-x", "y")] =
      some (QoSError.unknownResourceType "ext-x") ∧
    validateSandboxClasses [("podres-1", "nope")] =
      some (QoSError.unknownClass "podres-1" "nope") ∧
    validateContainerClasses [("ext-x", "y")] =
      some (QoSError.unknownResourceType "ext-x") ∧
    validateContainerClasses [("dummy-2", "nope")] =
      some (QoSError.unknownClass "dummy-2" "nope") := by
  refine ⟨?_, ?_, ?_, ?_⟩
  · exact (c6_extension_catalog_checks [] [] "ext-x" "y").1 rfl rfl
      (by decide) (by decide)
  · exact (c6_extension_catalog_checks [] [] "podres-1" "nope").2.1
      ["qos-a", "qos-b", "qos-c", "qos-d"] rfl rfl (by decide)
  · exact (c6_extension_catalog_checks [] [] "ext-x" "y").2.2.1 rfl
      (by decide) (by decide) rfl
  · exact (c6_extension_catalog_checks [] [] "dummy-2" "nope").2.2.2
      ["platinum", "gold", "silver", "bronze"] rfl (by decide) (by decide)
      rfl (by decide)

/-- A non-empty class makes the RDT projection write prefix + class into
the IntelRdt ClosID field. -/
theorem projectRdt_intelRdt_ne {β : Type} (cfg : ServerConfig β) (cls : String)
    (spec : OciSpec β) (h : cls ≠ "") :
    (projectRdt cfg cls spec).linux.intelRdt =
      some ⟨cfg.rdt.resctrlPrefix ++ cls⟩ := by
  unfold projectRdt
  rw [if_pos h]

/-- An empty class makes the RDT projection a no-op. -/
theorem projectRdt_empty {β : Type} (cfg : ServerConfig β) (spec : OciSpec β) :
    projectRdt cfg "" spec = spec := by
  unfold projectRdt
  simp

/-- C7: when RDT resolution succeeds, a non-empty class is projected as
ClosID = ResctrlPrefix + class in the final descriptor, and an empty
class leaves the IntelRdt field exactly as it was (no mutation). -/
theorem c7_rdt_projection {β : Type} (cfg : ServerConfig β) (ctr : ContainerConfig)
    (sb : Sandbox) (spec : OciSpec β) (cls : String)
    (hval : validateContainerClasses ctr.qosClasses = none)
    (hr : getContainerRdtClass cfg ctr sb = Except.ok cls) :
    (cls ≠ "" → (handleContainerQoSResources cfg ctr sb spec).1.linux.intelRdt =
      some ⟨cfg.rdt.resctrlPrefix ++ cls⟩) ∧
    (cls = "" → (handleContainerQoSResources cfg ctr sb spec).1.linux.intelRdt =
      spec.linux.intelRdt) := by
  have hspec1 : (handleContainerQoSResources cfg ctr sb spec).1.linux.intelRdt =
      (projectRdt cfg cls spec).linux.intelRdt := by
    unfold handleContainerQoSResources
    rw [hval, hr]
    cases hb : getContainerBlockioClass cfg ctr sb with
    | error e => rfl
    | ok b => exact projectBlockIo_intelRdt cfg b (projectRdt cfg cls spec)
  constructor
  · intro hne
    rw [hspec1, projectRdt_intelRdt_ne cfg cls spec hne]
  · intro he
    subst he
    rw [hspec1, projectRdt_empty]

/-- Witness for C7: "gold" yields ClosID "pfx-gold"; an empty resolution
leaves the field unset on a fresh descriptor. -/
theorem c7_witness :
    (handleContainerQoSResources wCfgSilver wCtr wSb spec0).1.linux.intelRdt =
      some ⟨"pfx-gold"⟩ ∧
    (handleContainerQoSResources wCfgNone wCtrEmpty wSb spec0).1.linux.intelRdt =
      none := by
  constructor
  · exact (c7_rdt_projection wCfgSilver wCtr wSb spec0 "gold" rfl rfl).1 (by decide)
  · exact (c7_rdt_projection wCfgNone wCtrEmpty wSb spec0 "" rfl rfl).2 rfl

/-- Re-running the RDT projection with the same class on a descriptor
whose ClosID it already wrote changes nothing (assignment, not append). -/
theorem projectRdt_overwrite {β : Type} (cfg : ServerConfig β) (cls : String)
    (t : OciSpec β) (hc : cls ≠ "")
    (h : t.linux.intelRdt = some ⟨cfg.rdt.resctrlPrefix ++ cls⟩) :
    projectRdt cfg cls t = t := by
  obtain ⟨⟨ir, res⟩⟩ := t
  simp only at h
  unfold projectRdt
  rw [if_pos hc, h]

/-- The RDT projection is stable under a following BlockIO projection
and re-application. -/
theorem projectRdt_stable {β : Type} (cfg : ServerConfig β) (rcls bcls : String)
    (spec : OciSpec β) :
    projectRdt cfg rcls (projectBlockIo cfg bcls (projectRdt cfg rcls spec)) =
      projectBlockIo cfg bcls (projectRdt cfg rcls spec) := by
  by_cases hc : rcls = ""
  · subst hc
    rw [projectRdt_empty]
  · refine projectRdt_overwrite cfg rcls _ hc ?_
    rw [projectBlockIo_intelRdt, projectRdt_intelRdt_ne cfg rcls spec hc]

/-- Re-running the BlockIO projection with the same class changes
nothing (assignment, not append). -/
theorem projectBlockIo_stable {β : Type} (cfg : ServerConfig β) (cls : String)
    (spec : OciSpec β) :
    projectBlockIo cfg cls (projectBlockIo cfg cls spec) =
      projectBlockIo cfg cls spec := by
  obtain ⟨⟨ir, res⟩⟩ := spec
  unfold projectBlockIo
  by_cases hc : cls = ""
  · simp [hc]
  · cases ht : cfg.ociLinuxBlockIo cls with
    | error e => simp [hc, ht]
    | ok lb => simp [hc, ht]

/-- C8: a successful handleContainerQoSResources run is idempotent on
the descriptor — running it again on its own output (same container,
sandbox and configuration) reproduces the identical output, with no
accumulation or duplication of the ClosID or block-I/O fields. -/
theorem c8_idempotent {β : Type} (cfg : ServerConfig β) (ctr : ContainerConfig)
    (sb : Sandbox) (spec : OciSpec β)
    (h : (handleContainerQoSResources cfg ctr sb spec).2 = none) :
    handleContainerQoSResources cfg ctr sb
        (handleContainerQoSResources cfg ctr sb spec).1 =
      handleContainerQoSResources cfg ctr sb spec := by
  cases hval : validateContainerClasses ctr.qosClasses with
  | some e =>
    exfalso
    unfold handleContainerQoSResources at h
    rw [hval] at h
    simp at h
  | none =>
    cases hr : getContainerRdtClass cfg ctr sb with
    | error e =>
      exfalso
      unfold handleContainerQoSResources at h
      rw [hval, hr] at h
      simp at h
    | ok rcls =>
      cases hb : getContainerBlockioClass cfg ctr sb with
      | error e =>
        exfalso
        unfold handleContainerQoSResources at h
        rw [hval, hr, hb] at h
        simp at h
      | ok bcls =>
        have hh : handleContainerQoSResources cfg ctr sb spec =
            (projectBlockIo cfg bcls (projectRdt cfg rcls spec), none) := by
          unfold handleContainerQoSResources
          rw [hval, hr, hb]
        rw [hh]
        unfold handleContainerQoSResources
        rw [hval, hr, hb]
        show (projectBlockIo cfg bcls (projectRdt cfg rcls
            (projectBlockIo cfg bcls (projectRdt cfg rcls spec))),
          (none : Option QoSError)) =
          (projectBlockIo cfg bcls (projectRdt cfg rcls spec), none)
        rw [projectRdt_stable, projectBlockIo_stable]

/-- Witness for C8 on a fully enabled server and the RDT "gold" /
BlockIO "fast" container. -/
theorem c8_witness :
    handleContainerQoSResources wCfgSilver wCtr wSb
        (handleContainerQoSResources wCfgSilver wCtr wSb spec0).1 =
      handleContainerQoSResources wCfgSilver wCtr wSb spec0 := by
  exact c8_idempotent wCfgSilver wCtr wSb spec0 rfl

/-- Mapping ClassInfo.name over createClassInfos recovers the original
name list. -/
theorem createClassInfos_names (xs : List String) :
    (createClassInfos xs).map ClassInfo.name = xs := by
  unfold createClassInfos
  rw [List.map_map]
  have hcomp : (ClassInfo.name ∘ fun p : Nat × String => (⟨p.2, p.1⟩ : ClassInfo)) =
      Prod.snd := rfl
  rw [hcomp, List.enum_map_snd]

/-- A single valid per-entry check makes the singleton request validate. -/
theorem validateContainerClasses_single (r c : String)
    (h : validateContainerEntry r c = none) :
    validateContainerClasses [(r, c)] = none := by
  rw [validateContainerClasses_cons, h]
  rfl

/-- The container validator accepts any native-type entry with a
non-empty class. -/
theorem validateContainerEntry_native (r c : String)
    (hr : r = QoSResourceRdt ∨ r = QoSResourceBlockio) (hc : c ≠ "") :
    validateContainerEntry r c = none := by
  unfold validateContainerEntry
  rcases hr with h | h <;> subst h <;> simp [QoSResourceRdt, QoSResourceBlockio, hc]

/-- Membership characterization of the container-level catalog snapshot. -/
theorem mem_getContainerQoSResourcesInfo {β : Type} (cfg : ServerConfig β)
    (info : QoSResourceInfo) :
    info ∈ getContainerQoSResourcesInfo cfg ↔
      (cfg.rdt.classes.length > 0 ∧
        info = ⟨QoSResourceRdt, false, createClassInfos cfg.rdt.classes⟩) ∨
      (cfg.blockIo.classes.length > 0 ∧
        info = ⟨QoSResourceBlockio, false, createClassInfos cfg.blockIo.classes⟩) ∨
      info ∈ dummyContainerQoSResourcesInfo := by
  unfold getContainerQoSResourcesInfo
  by_cases h1 : cfg.rdt.classes.length > 0 <;>
    by_cases h2 : cfg.blockIo.classes.length > 0 <;>
    simp [h1, h2, or_assoc]

/-- C9: every (type, class) pair exposed by the capability catalog is
accepted by the matching validator — the pod pairs by the sandbox
validator and the container pairs by the container validator — provided
the externally configured RDT/BlockIO class names are themselves
non-empty strings. -/
theorem c9_catalog_validator_consistent {β : Type} (cfg : ServerConfig β)
    (hrdt : "" ∉ cfg.rdt.classes) (hbio : "" ∉ cfg.blockIo.classes) :
    (∀ p ∈ catalogPairs getPodQoSResourcesInfo,
      handleSandboxQoSResources ⟨[p]⟩ = none) ∧
    (∀ p ∈ catalogPairs (getContainerQoSResourcesInfo cfg),
      validateContainerClasses [p] = none) := by
  constructor
  · decide
  · have hdummyOK : ∀ p ∈ catalogPairs dummyContainerQoSResourcesInfo,
        validateContainerClasses [p] = none := by decide
    intro p hp
    simp only [catalogPairs, List.mem_flatMap, List.mem_map] at hp
    obtain ⟨info, hinfo, c, hc, hpc⟩ := hp
    subst hpc
    rcases (mem_getContainerQoSResourcesInfo cfg info).mp hinfo with
      ⟨_, hi⟩ | ⟨_, hi⟩ | hdummy
    · subst hi
      have hcn : c.name ∈ cfg.rdt.classes := by
        rw [← createClassInfos_names cfg.rdt.classes]
        exact List.mem_map_of_mem ClassInfo.name hc
      exact validateContainerClasses_single _ _
        (validateContainerEntry_native _ _ (Or.inl rfl)
          (fun h => hrdt (h ▸ hcn)))
    · subst hi
      have hcn : c.name ∈ cfg.blockIo.classes := by
        rw [← createClassInfos_names cfg.blockIo.classes]
        exact List.mem_map_of_mem ClassInfo.name hc
      exact validateContainerClasses_single _ _
        (validateContainerEntry_native _ _ (Or.inr rfl)
          (fun h => hbio (h ▸ hcn)))
    · refine hdummyOK _ ?_
      simp only [catalogPairs, List.mem_flatMap, List.mem_map]
      exact ⟨info, hdummy, c, hc, rfl⟩

/-- Witness for C9 on a server configured with RDT class "gold" and
BlockIO class "fast". -/
theorem c9_witness :
    handleSandboxQoSResources ⟨[("podres-1", "qos-a")]⟩ = none ∧
    validateContainerClasses [("rdt", "gold")] = none ∧
    validateContainerClasses [("dummy-2", "platinum")] = none := by
  have h := c9_catalog_validator_consistent wCfgSilver (by decide) (by decide)
  exact ⟨h.1 ("podres-1", "qos-a") (by decide),
    h.2 ("rdt", "gold") (by decide),
    h.2 ("dummy-2", "platinum") (by decide)⟩

/-- C10: projection is not atomic across the two native types — when RDT
resolves to a non-empty class and the subsequent BlockIO resolution
fails, the handler returns the BlockIO error while the descriptor
already carries the freshly written ClosID; the error does not undo the
RDT mutation. -/
theorem c10_partial_mutation {β : Type} (cfg : ServerConfig β) (ctr : ContainerConfig)
    (sb : Sandbox) (spec : OciSpec β) (cls : String) (e : QoSError)
    (hval : validateContainerClasses ctr.qosClasses = none)
    (hr : getContainerRdtClass cfg ctr sb = Except.ok cls)
    (hne : cls ≠ "")
    (hb : getContainerBlockioClass cfg ctr sb = Except.error e) :
    handleContainerQoSResources cfg ctr sb spec =
      ({ spec with linux.intelRdt := some ⟨cfg.rdt.resctrlPrefix ++ cls⟩ }, some e) := by
  unfold handleContainerQoSResources
  rw [hval, hr, hb]
  show (projectRdt cfg cls spec, some e) = _
  unfold projectRdt
  rw [if_pos hne]

/-- Witness for C10: with RDT "gold" in the map and a failing BlockIO
annotation resolver, the handler errors but the ClosID stays written. -/
theorem c10_witness :
    handleContainerQoSResources wCfgBoom wCtrRdtOnly wSb spec0 =
      (⟨⟨some ⟨"pfx-gold"⟩, none⟩⟩, some (QoSError.resolverError "bang")) := by
  exact c10_partial_mutation wCfgBoom wCtrRdtOnly wSb spec0 "gold"
    (QoSError.resolverError "bang") rfl rfl (by decide) rfl

end CrioQoS
